import Mathlib

/-!
Verification of the graph-explorer 2D camera/viewport engine.

The development shallowly embeds the three source files over exact rational
arithmetic: the camera-state variant (screenToCanvas, canvasToScreen,
panCamera, zoomCamera and its wheel dispatcher) and the incremental-transform
variant (scale/viewportTopLeft tracking, wheel handler, pan effect, reset).
-/

/-- Screen- or world-space point, as in the source `type Point = {x, y}`. -/
@[ext]
structure Point where
  x : ℚ
  y : ℚ
deriving DecidableEq, Repr

/-- Camera state `{x, y, z}`: translation offset and scale. -/
@[ext]
structure Camera where
  x : ℚ
  y : ℚ
  z : ℚ
deriving DecidableEq, Repr

def ORIGIN : Point := ⟨0, 0⟩

def TOUCHPAD_ZOOM_SENS : ℚ := 200

def TOUCHPAD_PAN_SENS : ℚ := 1

/-- Source: `screenToCanvas(point, camera) = {x: point.x / camera.z - camera.x, y: point.y / camera.z - camera.y}`. -/
def screenToCanvas (point : Point) (camera : Camera) : Point :=
  ⟨point.x / camera.z - camera.x, point.y / camera.z - camera.y⟩

/-- Source: `canvasToScreen(point, camera) = {x: (point.x + camera.x) * camera.z, y: (point.y + camera.y) * camera.z}`. -/
def canvasToScreen (point : Point) (camera : Camera) : Point :=
  ⟨(point.x + camera.x) * camera.z, (point.y + camera.y) * camera.z⟩

/-- Source: `panCamera(camera, dx, dy) = {x: camera.x - dx / camera.z, y: camera.y - dy / camera.z, z: camera.z}`. -/
def panCamera (camera : Camera) (dx dy : ℚ) : Camera :=
  ⟨camera.x - dx / camera.z, camera.y - dy / camera.z, camera.z⟩

/-- Source: `zoomCamera(camera, point, dz)` with `zoom = camera.z - dz * camera.z`,
`p1 = screenToCanvas(point, camera)`, `p2 = screenToCanvas(point, {...camera, z: zoom})`,
returning `{x: camera.x + (p2.x - p1.x), y: camera.y + (p2.y - p1.y), z: zoom}`. -/
def zoomCamera (camera : Camera) (point : Point) (dz : ℚ) : Camera :=
  let zoom := camera.z - dz * camera.z
  let p1 := screenToCanvas point camera
  let p2 := screenToCanvas point ⟨camera.x, camera.y, zoom⟩
  ⟨camera.x + (p2.x - p1.x), camera.y + (p2.y - p1.y), zoom⟩

/-- Wheel input event fields used by the handlers: `(clientX, clientY, deltaX, deltaY, ctrlKey)`. -/
structure WheelEvent where
  clientX : ℚ
  clientY : ℚ
  deltaX : ℚ
  deltaY : ℚ
  ctrlKey : Bool
deriving DecidableEq, Repr

/-- Source: the wheel handler of the camera-state variant — ctrl routes to
`zoomCamera(camera, {x, y}, deltaY / TOUCHPAD_ZOOM_SENS)`, otherwise to
`panCamera(camera, deltaX * TOUCHPAD_PAN_SENS, deltaY * TOUCHPAD_PAN_SENS)`. -/
def handleWheel (camera : Camera) (e : WheelEvent) : Camera :=
  if e.ctrlKey then
    zoomCamera camera ⟨e.clientX, e.clientY⟩ (e.deltaY / TOUCHPAD_ZOOM_SENS)
  else
    panCamera camera (e.deltaX * TOUCHPAD_PAN_SENS) (e.deltaY * TOUCHPAD_PAN_SENS)

/-- Claim C1: for every camera with positive scale whose zoomed scale stays positive,
the world point under the anchor is unchanged by an anchored zoom:
`screenToCanvas a (zoomCamera c a d) = screenToCanvas a c`. -/
theorem zoom_preserves_anchor (c : Camera) (a : Point) (d : ℚ)
    (hz : 0 < c.z) (hz' : 0 < c.z - d * c.z) :
    screenToCanvas a (zoomCamera c a d) = screenToCanvas a c := by
  simp only [screenToCanvas, zoomCamera, Point.mk.injEq]
  constructor <;> ring

/-- Witness for C1 at camera `(0,0,1)`, anchor `(3,4)`, delta `1/2`. -/
theorem zoom_preserves_anchor_witness :
    0 < Camera.z ⟨0, 0, 1⟩ ∧ 0 < Camera.z ⟨0, 0, 1⟩ - (1/2) * Camera.z ⟨0, 0, 1⟩ ∧
      screenToCanvas ⟨3, 4⟩ (zoomCamera ⟨0, 0, 1⟩ ⟨3, 4⟩ (1/2)) =
        screenToCanvas ⟨3, 4⟩ ⟨0, 0, 1⟩ :=
  ⟨by norm_num, by norm_num, zoom_preserves_anchor ⟨0, 0, 1⟩ ⟨3, 4⟩ (1/2) (by norm_num) (by norm_num)⟩

/-- Claim C2: for every camera with positive scale, screen-to-world and
world-to-screen are mutually inverse in both directions (exactly, over ℚ). -/
theorem screen_world_roundtrip (c : Camera) (p : Point) (hz : 0 < c.z) :
    canvasToScreen (screenToCanvas p c) c = p ∧
      screenToCanvas (canvasToScreen p c) c = p := by
  have h : c.z ≠ 0 := ne_of_gt hz
  refine ⟨Point.ext ?_ ?_, Point.ext ?_ ?_⟩ <;>
    · simp only [screenToCanvas, canvasToScreen]
      field_simp
      all_goals ring

/-- Witness for C2 at camera `(5,7,2)`, point `(3,11)`. -/
theorem screen_world_roundtrip_witness :
    0 < Camera.z ⟨5, 7, 2⟩ ∧
      (canvasToScreen (screenToCanvas ⟨3, 11⟩ ⟨5, 7, 2⟩) ⟨5, 7, 2⟩ = ⟨3, 11⟩ ∧
        screenToCanvas (canvasToScreen ⟨3, 11⟩ ⟨5, 7, 2⟩) ⟨5, 7, 2⟩ = ⟨3, 11⟩) :=
  ⟨by norm_num, screen_world_roundtrip ⟨5, 7, 2⟩ ⟨3, 11⟩ (by norm_num)⟩

/-- Claim C3 counterexample: the wheel handler performs no clamping — a ctrl-wheel
with `deltaY = 400` on the identity camera produces scale `-1`, which is not positive. -/
theorem zoom_no_clamp_counterexample :
    (handleWheel ⟨0, 0, 1⟩ ⟨9, 9, 0, 400, true⟩).z = -1 ∧
      ¬ 0 < (handleWheel ⟨0, 0, 1⟩ ⟨9, 9, 0, 400, true⟩).z := by
  norm_num [handleWheel, zoomCamera, screenToCanvas, TOUCHPAD_ZOOM_SENS]

/-- Claim C3 amended: the zoom path of the wheel handler substitutes no epsilon;
it returns scale `z - (deltaY/200)*z`, which is positive exactly when `deltaY < 200`. -/
theorem zoom_scale_unclamped (c : Camera) (e : WheelEvent)
    (hz : 0 < c.z) (hc : e.ctrlKey = true) :
    (handleWheel c e).z = c.z - e.deltaY / 200 * c.z ∧
      (0 < (handleWheel c e).z ↔ e.deltaY < 200) := by
  have hzval : (handleWheel c e).z = c.z * (1 - e.deltaY / 200) := by
    simp only [handleWheel, hc, if_true, zoomCamera, TOUCHPAD_ZOOM_SENS]
    ring
  rw [hzval]
  refine ⟨by ring, ?_, ?_⟩
  · intro hpos
    by_contra hge
    push_neg at hge
    have h1 : 1 - e.deltaY / 200 ≤ 0 := by linarith
    nlinarith
  · intro hlt
    have h1 : 0 < 1 - e.deltaY / 200 := by linarith
    exact mul_pos hz h1

/-- Witness for the amended C3 at the identity camera and a ctrl-wheel with `deltaY = 100`. -/
theorem zoom_scale_unclamped_witness :
    (handleWheel ⟨0, 0, 1⟩ ⟨0, 0, 0, 100, true⟩).z =
        Camera.z ⟨0, 0, 1⟩ - 100 / 200 * Camera.z ⟨0, 0, 1⟩ ∧
      (0 < (handleWheel ⟨0, 0, 1⟩ ⟨0, 0, 0, 100, true⟩).z ↔ (100 : ℚ) < 200) :=
  zoom_scale_unclamped ⟨0, 0, 1⟩ ⟨0, 0, 0, 100, true⟩ (by norm_num) rfl

/-- Claim C4: pan returns a camera with `x - dx/z`, `y - dy/z` and `z` unchanged,
and the identity camera panned by `(100, 50)` becomes `(-100, -50, 1)`. -/
theorem pan_formula (c : Camera) (dx dy : ℚ) :
    panCamera c dx dy = ⟨c.x - dx / c.z, c.y - dy / c.z, c.z⟩ ∧
      panCamera ⟨0, 0, 1⟩ 100 50 = ⟨-100, -50, 1⟩ :=
  ⟨rfl, by norm_num [panCamera, Camera.mk.injEq]⟩

/-- Claim C5: the zoomed scale is `z - dz*z`, and zooming the identity camera at
anchor `(0,0)` with `dz = 1/2` yields exactly the camera `(0, 0, 1/2)`. -/
theorem zoom_scale_formula (c : Camera) (a : Point) (d : ℚ) :
    (zoomCamera c a d).z = c.z - d * c.z ∧
      zoomCamera ⟨0, 0, 1⟩ ⟨0, 0⟩ (1/2) = ⟨0, 0, 1/2⟩ :=
  ⟨rfl, by norm_num [zoomCamera, screenToCanvas, Camera.mk.injEq]⟩

/-- Claim C6: consecutive pans compose additively in their screen-space deltas. -/
theorem pan_additive (c : Camera) (dx1 dy1 dx2 dy2 : ℚ) (hz : 0 < c.z) :
    panCamera (panCamera c dx1 dy1) dx2 dy2 = panCamera c (dx1 + dx2) (dy1 + dy2) := by
  refine Camera.ext ?_ ?_ ?_ <;> simp only [panCamera] <;> ring

/-- Witness for C6 at the identity camera with deltas `(1,2)` and `(3,4)`. -/
theorem pan_additive_witness :
    0 < Camera.z ⟨0, 0, 1⟩ ∧
      panCamera (panCamera ⟨0, 0, 1⟩ 1 2) 3 4 = panCamera ⟨0, 0, 1⟩ (1 + 3) (2 + 4) :=
  ⟨by norm_num, pan_additive ⟨0, 0, 1⟩ 1 2 3 4 (by norm_num)⟩

/-- Claim C10: a zoom with delta `0` is an exact identity on the camera. -/
theorem zoom_zero_identity (c : Camera) (a : Point) : zoomCamera c a 0 = c := by
  refine Camera.ext ?_ ?_ ?_ <;> simp only [zoomCamera, screenToCanvas] <;> ring

def ZOOM_SENSITIVITY : ℚ := 500

def PINCH_SENSITIVITY : ℚ := 200

/-- Source: `diffPoints(a, b) = {x: a.x - b.x, y: a.y - b.y}`. -/
def diffPoints (a b : Point) : Point := ⟨a.x - b.x, a.y - b.y⟩

/-- Source: `addPoints(a, b) = {x: a.x + b.x, y: a.y + b.y}`. -/
def addPoints (a b : Point) : Point := ⟨a.x + b.x, a.y + b.y⟩

/-- Source: `scalePoint(a, scalar) = {x: a.x / scalar, y: a.y / scalar}`. -/
def scalePoint (a : Point) (scalar : ℚ) : Point := ⟨a.x / scalar, a.y / scalar⟩

/-- Rotation-free 2D context transform: uniform scale `a` and translation `(e, f)`,
the shape every `resetTransform` / `scale` / `translate` sequence in the source keeps. -/
@[ext]
structure Transform where
  a : ℚ
  e : ℚ
  f : ℚ
deriving DecidableEq, Repr

/-- Transform of a fresh context (`resetTransform`). -/
def Transform.identity : Transform := ⟨1, 0, 0⟩

/-- Source `context.scale(k, k)`: right-composition with a uniform scale. -/
def Transform.scaleBy (t : Transform) (k : ℚ) : Transform :=
  ⟨t.a * k, t.e, t.f⟩

/-- Source `context.translate(tx, ty)`: right-composition with a translation. -/
def Transform.translateBy (t : Transform) (tx ty : ℚ) : Transform :=
  ⟨t.a, t.e + t.a * tx, t.f + t.a * ty⟩

/-- Source: the camera-variant draw effect — `resetTransform()`,
`scale(camera.z, camera.z)`, `translate(camera.x, camera.y)`. -/
def drawTransform (camera : Camera) : Transform :=
  (Transform.identity.scaleBy camera.z).translateBy camera.x camera.y

/-- State hand-tracked by the incremental-transform variant: the live context
transform plus the `scale` and `viewportTopLeft` React state. -/
@[ext]
structure IncState where
  transform : Transform
  scale : ℚ
  viewportTopLeft : Point
deriving DecidableEq, Repr

/-- Source: the incremental-variant wheel handler — `zoom = 1 - deltaY / PINCH_SENSITIVITY`
under ctrl, else `1 - deltaY / ZOOM_SENSITIVITY`; shifts `viewportTopLeft` by
`(mousePos / scale) * (1 - 1/zoom)`, then issues `translate(viewportTopLeft)`,
`scale(zoom, zoom)`, `translate(-newViewportTopLeft)` and stores `scale * zoom`. -/
def handleWheelInc (s : IncState) (mousePos : Point) (deltaY : ℚ) (ctrlKey : Bool) :
    IncState :=
  let zoom := if ctrlKey then 1 - deltaY / PINCH_SENSITIVITY else 1 - deltaY / ZOOM_SENSITIVITY
  let viewportTopLeftDelta : Point :=
    ⟨mousePos.x / s.scale * (1 - 1 / zoom), mousePos.y / s.scale * (1 - 1 / zoom)⟩
  let newViewportTopLeft := addPoints s.viewportTopLeft viewportTopLeftDelta
  let t1 := s.transform.translateBy s.viewportTopLeft.x s.viewportTopLeft.y
  let t2 := t1.scaleBy zoom
  let t3 := t2.translateBy (-newViewportTopLeft.x) (-newViewportTopLeft.y)
  ⟨t3, s.scale * zoom, newViewportTopLeft⟩

/-- Source: the pan layout effect — `offsetDiff = scalePoint(diffPoints(offset, lastOffset), scale)`,
then `context.translate(offsetDiff)` and `viewportTopLeft := diffPoints(viewportTopLeft, offsetDiff)`.
The argument is the accumulated pointer diff `offset - lastOffset`. -/
def panInc (s : IncState) (mouseDiff : Point) : IncState :=
  let offsetDiff := scalePoint mouseDiff s.scale
  ⟨s.transform.translateBy offsetDiff.x offsetDiff.y, s.scale,
    diffPoints s.viewportTopLeft offsetDiff⟩

/-- Gesture events reaching the incremental variant: a wheel tick or a pointer pan diff. -/
inductive GestureEvent where
  | wheel (mousePos : Point) (deltaY : ℚ) (ctrlKey : Bool)
  | pan (mouseDiff : Point)
deriving DecidableEq, Repr

def stepInc (s : IncState) : GestureEvent → IncState
  | .wheel m dY ctrl => handleWheelInc s m dY ctrl
  | .pan d => panInc s d

def runInc (s : IncState) (evs : List GestureEvent) : IncState :=
  evs.foldl stepInc s

/-- State of the incremental variant right after mount/reset: identity transform,
scale 1, viewport top-left at the origin. -/
def initInc : IncState := ⟨Transform.identity, 1, ORIGIN⟩

/-- Camera equivalent of the hand-tracked incremental state: `viewportTopLeft` is the
world point at the screen origin, so the camera offset is its negation and `z` is `scale`. -/
def cameraOfInc (s : IncState) : Camera :=
  ⟨-s.viewportTopLeft.x, -s.viewportTopLeft.y, s.scale⟩

lemma stepInc_invariant (s : IncState) (ev : GestureEvent)
    (h : s.transform = drawTransform (cameraOfInc s)) :
    (stepInc s ev).transform = drawTransform (cameraOfInc (stepInc s ev)) := by
  obtain ⟨t, sc, v⟩ := s
  cases ev with
  | wheel m dY ctrl =>
      simp only [stepInc, handleWheelInc, drawTransform, cameraOfInc, Transform.identity,
        Transform.scaleBy, Transform.translateBy, addPoints] at h ⊢
      rw [h]
      cases ctrl <;>
        · refine Transform.ext ?_ ?_ ?_ <;> simp only [] <;> ring
  | pan d =>
      simp only [stepInc, panInc, drawTransform, cameraOfInc, Transform.identity,
        Transform.scaleBy, Transform.translateBy, scalePoint, diffPoints] at h ⊢
      rw [h]
      refine Transform.ext ?_ ?_ ?_ <;> simp only [] <;> ring

/-- Claim C9: after any sequence of pan and wheel events starting from the reset
state, the incrementally composed context transform coincides exactly with the
transform recomputed from scratch from the equivalent camera
(`resetTransform`, `scale(z)`, `translate(x, y)`). -/
theorem incremental_refines_camera (evs : List GestureEvent) :
    (runInc initInc evs).transform = drawTransform (cameraOfInc (runInc initInc evs)) := by
  have key : ∀ (l : List GestureEvent) (s : IncState),
      s.transform = drawTransform (cameraOfInc s) →
      (runInc s l).transform = drawTransform (cameraOfInc (runInc s l)) := by
    intro l
    induction l with
    | nil => intro s hs; exact hs
    | cons ev rest ih => intro s hs; exact ih (stepInc s ev) (stepInc_invariant s ev hs)
  refine key evs initInc ?_
  refine Transform.ext ?_ ?_ ?_ <;>
    simp [initInc, drawTransform, cameraOfInc, Transform.identity, Transform.scaleBy,
      Transform.translateBy, ORIGIN]

/-- Claim C8 counterexample: in the incremental variant a wheel event WITHOUT ctrl
still zooms — from the reset state a `deltaY = 100` tick multiplies the scale by
`1 - 100/500 = 4/5` instead of panning. -/
theorem wheel_nonctrl_zooms_counterexample :
    (handleWheelInc initInc ⟨0, 0⟩ 100 false).scale = 4/5 ∧
      (handleWheelInc initInc ⟨0, 0⟩ 100 false).scale ≠ initInc.scale := by
  norm_num [handleWheelInc, initInc, ZOOM_SENSITIVITY]

/-- Claim C8 amended: the camera-variant handler routes ctrl-wheels to an anchored
zoom with `deltaZ = deltaY/200` and non-ctrl wheels to a pan by `(deltaX, deltaY)`;
the incremental-variant handler always zooms, multiplying the scale by
`1 - deltaY/200` under ctrl and by `1 - deltaY/500` otherwise. -/
theorem wheel_dispatch (camera : Camera) (cx cy dX dY : ℚ)
    (s : IncState) (m : Point) (d : ℚ) :
    handleWheel camera ⟨cx, cy, dX, dY, true⟩ = zoomCamera camera ⟨cx, cy⟩ (dY / 200) ∧
      handleWheel camera ⟨cx, cy, dX, dY, false⟩ = panCamera camera dX dY ∧
      (handleWheelInc s m d true).scale = s.scale * (1 - d / 200) ∧
      (handleWheelInc s m d false).scale = s.scale * (1 - d / 500) := by
  refine ⟨?_, ?_, ?_, ?_⟩ <;>
    simp [handleWheel, handleWheelInc, TOUCHPAD_ZOOM_SENS, TOUCHPAD_PAN_SENS,
      PINCH_SENSITIVITY, ZOOM_SENSITIVITY]

/-- Controller state of the incremental variant: tracked React state and refs
(`scale`, `offset`, `viewportTopLeft`, `mousePos`, `lastOffsetRef`, `lastMousePosRef`,
`isResetRef`) plus `panning`, true while the document-level mousemove/mouseup
listeners installed by `startPan` are attached. -/
@[ext]
structure ControllerState where
  scale : ℚ
  offset : Point
  viewportTopLeft : Point
  mousePos : Point
  lastOffset : Point
  lastMousePos : Point
  isReset : Bool
  panning : Bool
deriving DecidableEq, Repr

/-- Source `reset`: guarded by `!isResetRef.current`; sets `scale := 1` and all
offsets and tracked positions to the origin, then marks the flag. It does not
remove the pan listeners, so `panning` is untouched. -/
def reset (s : ControllerState) : ControllerState :=
  if !s.isReset then
    { s with
      scale := 1
      offset := ORIGIN
      mousePos := ORIGIN
      viewportTopLeft := ORIGIN
      lastOffset := ORIGIN
      lastMousePos := ORIGIN
      isReset := true }
  else s

/-- Source `startPan`: attaches the document mousemove/mouseup listeners and
records the pointer position in `lastMousePosRef`. -/
def startPan (s : ControllerState) (p : Point) : ControllerState :=
  { s with panning := true, lastMousePos := p }

/-- Source `mouseUp`: removes the document listeners, ending the pan gesture. -/
def mouseUp (s : ControllerState) : ControllerState :=
  { s with panning := false }

/-- Mid-pan controller state: a pan gesture is active (listeners attached), the
reset flag is clear (any camera change clears it), camera away from identity. -/
def panningState : ControllerState :=
  { scale := 2
    offset := ⟨3, 4⟩
    viewportTopLeft := ⟨-3, -4⟩
    mousePos := ⟨10, 10⟩
    lastOffset := ⟨3, 4⟩
    lastMousePos := ⟨13, 14⟩
    isReset := false
    panning := true }

/-- Claim C7 counterexample: calling `reset` from a mid-pan state leaves the pan
listeners attached — the gesture state is NOT forced to Idle, even though the
camera fields are reset. -/
theorem reset_keeps_panning_counterexample :
    panningState.panning = true ∧ (reset panningState).panning = true := by
  constructor <;> rfl

/-- Claim C7 amended: from any state with the already-reset flag clear, `reset`
returns the camera to the identity (scale 1, origin offsets) and clears the
tracked positions, but leaves the pan-gesture (listener) state unchanged rather
than forcing Idle; a second `reset` is a no-op thanks to the flag, so the camera
stays equal to the result of one call. -/
theorem reset_spec (s : ControllerState) (h : s.isReset = false) :
    ((reset s).scale = 1 ∧ (reset s).offset = ORIGIN ∧
      (reset s).viewportTopLeft = ORIGIN ∧ (reset s).panning = s.panning) ∧
      reset (reset s) = reset s := by
  constructor
  · simp [reset, h]
  · by_cases hr : s.isReset <;> simp [reset, hr]

/-- Witness for the amended C7 at the concrete mid-pan state. -/
theorem reset_spec_witness :
    ((reset panningState).scale = 1 ∧ (reset panningState).offset = ORIGIN ∧
      (reset panningState).viewportTopLeft = ORIGIN ∧
      (reset panningState).panning = panningState.panning) ∧
      reset (reset panningState) = reset panningState :=
  reset_spec panningState rfl
